import Mathlib

/-!
# Verification of the slurm-spank-rs option/callback layer

A shallow embedding of the core of `src/src/lib.rs` (the `slurm-spank` crate):
the option cache, the option-value accessors (`get_option_value_os`,
`is_option_set`, `getopt_os`), option registration (`registerOption`), the
native capture callback (`spank_option_callback`), the environment wrappers
(`do_getenv_os`, `do_setenv`, `do_unsetenv` and their public entry points), and
the callback-dispatch boundary (`spank_callback_with_globals` together with the
hook bodies generated by `SPANK_PLUGIN!`).

Modelling choices:
* C byte strings (`OsString` / `CString` payloads) are byte lists (`List Nat`);
  `CString::new` fails exactly when the byte list contains an embedded `0`.
* The native ABI (`spank_context`, `spank_option_getopt`,
  `spank_option_register`, `spank_getenv`, ...) is an explicit environment of
  pure functions, one field per native entry point.
* `HashMap` is an association list with in-place overwrite on insert; only its
  lookup/insert behaviour is relevant.
* Native pointers that may be null are `Option` values.
-/

namespace SpankRs

/-- Byte strings as handed across the C boundary (`OsString` contents). -/
abbrev Bytes := List Nat

/-- `CString::new` fails iff the byte string has an embedded NUL. -/
def hasNul (s : Bytes) : Bool := s.contains 0

/-- `Context` enum of `lib.rs`: context in which a plugin is loaded. -/
inductive Context where
  | Local
  | Remote
  | Allocator
  | Slurmd
  | JobScript
deriving DecidableEq, Repr

/-- The native SPANK status enumeration (`spank_err_t` constants used by the
    code: `ESPANK_SUCCESS` and the `slurm_err_t_ESPANK_*` values). -/
inductive SpankErr where
  | success
  | error
  | badArg
  | notTask
  | envExists
  | envNoexist
  | noSpace
  | notRemote
  | noExist
  | notExecd
  | notAvail
  | notLocal
deriving DecidableEq, Repr

/-- `SpankApiError` enum of `lib.rs` (mapped native codes). -/
inductive SpankApiError where
  | Generic
  | BadArg
  | NotTask
  | EnvExists
  | EnvNotExist
  | NoSpace
  | NotRemote
  | NoExist
  | NotExecd
  | NotAvail
  | NotLocal
deriving DecidableEq, Repr

/-- `SpankApiError::from` (via `num_enum::FromPrimitive`, default `Generic`).
    `ESPANK_SUCCESS` is not a variant of the Rust enum, so it falls back to
    the default `Generic` — error paths never feed it `success` anyway. -/
def SpankApiError.fromErr : SpankErr → SpankApiError
  | .success => .Generic
  | .error => .Generic
  | .badArg => .BadArg
  | .notTask => .NotTask
  | .envExists => .EnvExists
  | .envNoexist => .EnvNotExist
  | .noSpace => .NoSpace
  | .notRemote => .NotRemote
  | .noExist => .NoExist
  | .notExecd => .NotExecd
  | .notAvail => .NotAvail
  | .notLocal => .NotLocal

/-- `SpankError` enum of `lib.rs`. The `String` in `SpankAPI` is the Rust
    `&str` function-name literal, kept as a Lean `String`. -/
inductive SpankError where
  | CStringError (s : Bytes)
  | EnvExists (s : Bytes)
  | IdNotFound (v : Nat)
  | PidNotFound (v : Int)
  | SpankAPI (name : String) (e : SpankApiError)
  | Utf8Error (s : Bytes)
  | Overflow (n : Nat)
deriving DecidableEq, Repr

/-- `SpankError::from_spank(name, err)`. -/
def SpankError.from_spank (name : String) (e : SpankErr) : SpankError :=
  SpankError.SpankAPI name (SpankApiError.fromErr e)

/-- Lookup in the `values` map of the option cache
    (`HashMap::get` on `HashMap<String, Option<OsString>>`). -/
def valuesGet (m : List (Bytes × Option Bytes)) (k : Bytes) : Option (Option Bytes) :=
  match m with
  | [] => none
  | (k', v) :: rest => if k' = k then some v else valuesGet rest k

/-- Insert-with-overwrite in the `values` map (`HashMap::insert`). -/
def valuesInsert (m : List (Bytes × Option Bytes)) (k : Bytes) (v : Option Bytes) :
    List (Bytes × Option Bytes) :=
  match m with
  | [] => [(k, v)]
  | (k', v') :: rest =>
    if k' = k then (k, v) :: rest else (k', v') :: valuesInsert rest k v

/-- `OptionCache` struct of `lib.rs`: the ordered list of registered option
    names (index = slot/`val` correlation token) and the latest captured value
    per option name. -/
structure OptionCache where
  options : List Bytes
  values : List (Bytes × Option Bytes)
deriving DecidableEq, Repr

/-- Result of the native `spank_option_getopt` call: a status and the
    `optarg` out-pointer (`none` models a null pointer). -/
structure GetoptRes where
  status : SpankErr
  optarg : Option Bytes
deriving DecidableEq, Repr

/-- The native ABI surface as seen by the wrapper: one pure function per
    native entry point reachable from the modelled code. `context` is the
    result of `spank_context()` already passed through `Context::try_from`
    (`none` models a value outside the closed enumeration). For the
    environment calls, getenv-style functions take the variable name and the
    buffer size passed by the wrapper and return a status together with the
    (NUL-terminated C string read back from the buffer on success, modelled
    directly as) value bytes. -/
structure NativeEnv where
  context : Option Context
  getopt : Bytes → GetoptRes
  optionRegister : Bytes → Nat → SpankErr
  spank_getenv : Bytes → Nat → SpankErr × Bytes
  spank_job_control_getenv : Bytes → Nat → SpankErr × Bytes
  spank_setenv : Bytes → Bytes → Bool → SpankErr
  spank_job_control_setenv : Bytes → Bytes → Bool → SpankErr
  spank_unsetenv : Bytes → SpankErr
  spank_job_control_unsetenv : Bytes → SpankErr

/-- `SpankHandle::getopt_os` — the direct synchronous query against the
    native option table. Converts the name to a C string (failing with
    `CStringError` on an embedded NUL, before any native call), then invokes
    `spank_option_getopt`; on success a null `optarg` yields `Ok(None)`,
    otherwise the pointed-to bytes; any other status is a wrapped
    `spank_option_getopt` API error. -/
def getopt_os (env : NativeEnv) (name : Bytes) : Except SpankError (Option Bytes) :=
  if hasNul name then
    Except.error (SpankError.CStringError name)
  else
    let r := env.getopt name
    match r.status with
    | SpankErr.success => Except.ok r.optarg
    | e => Except.error (SpankError.from_spank "spank_option_getopt" e)

/-- Output of one `get_option_value_os` invocation, instrumented with the
    resulting cache state (the Rust method takes `&self` and never mutates the
    cache; threading the cache through makes that checkable) and the number of
    native `spank_option_getopt` calls it performed. -/
structure QueryOut where
  result : Option Bytes
  cache : OptionCache
  nativeGetoptCalls : Nat
deriving DecidableEq, Repr

/-- `SpankHandle::get_option_value_os`. In `JobScript` context it performs the
    direct `getopt_os` query, discarding any error (`.ok() ... unwrap_or(None)`)
    and leaving the cache untouched; in every other case (including a failed
    `context()` query) it reads the cache: only an entry `Some(Some v)` yields
    a value. `nativeGetoptCalls` counts the `spank_option_getopt` invocations:
    `getopt_os` performs exactly one unless the name fails C-string
    conversion first. -/
def get_option_value_os (env : NativeEnv) (cache : OptionCache) (name : Bytes) : QueryOut :=
  match env.context with
  | some Context.JobScript =>
    { result :=
        match getopt_os env name with
        | Except.ok opt => opt
        | Except.error _ => none
      cache := cache
      nativeGetoptCalls := if hasNul name then 0 else 1 }
  | _ =>
    { result :=
        match valuesGet cache.values name with
        | some (some v) => some v
        | _ => none
      cache := cache
      nativeGetoptCalls := 0 }

/-- `Result::is_ok` on `Except`. -/
def exceptIsOk {ε α : Type} : Except ε α → Bool
  | Except.ok _ => true
  | Except.error _ => false

/-- `SpankHandle::is_option_set`. In `JobScript` context: whether the direct
    `getopt_os` query returns `Ok` (regardless of a null `optarg`); otherwise:
    whether the cache has any entry for the name. -/
def is_option_set (env : NativeEnv) (cache : OptionCache) (name : Bytes) : Bool :=
  match env.context with
  | some Context.JobScript => exceptIsOk (getopt_os env name)
  | _ => (valuesGet cache.values name).isSome

/-- `SpankOption` builder result: name, optional `arginfo` (presence means the
    option takes a value), optional usage string. -/
structure SpankOption where
  name : Bytes
  arginfo : Option Bytes
  usage : Option Bytes
deriving DecidableEq, Repr

/-- `CString::new` on an optional field: returns the offending bytes when the
    conversion fails (embedded NUL), `none` when it succeeds or the field is
    absent. -/
def badCString : Option Bytes → Option Bytes
  | none => none
  | some s => if hasNul s then some s else none

/-- `SpankHandle::register_option` (Lean reserves the source name as a command token). Converts `arginfo`, then `name`, then
    `usage` to C strings, each failing with `CStringError` carrying the
    offending string; then invokes `spank_option_register` with
    `val = options.len()` as the slot/correlation token. On success the name is
    appended to `options`; on any failure the cache is returned unchanged. -/
def registerOption (env : NativeEnv) (cache : OptionCache) (opt : SpankOption) :
    Except SpankError Unit × OptionCache :=
  match badCString opt.arginfo with
  | some info => (Except.error (SpankError.CStringError info), cache)
  | none =>
    if hasNul opt.name then
      (Except.error (SpankError.CStringError opt.name), cache)
    else
      match badCString opt.usage with
      | some usage => (Except.error (SpankError.CStringError usage), cache)
      | none =>
        match env.optionRegister opt.name cache.options.length with
        | SpankErr.success =>
          (Except.ok (), { cache with options := cache.options ++ [opt.name] })
        | e => (Except.error (SpankError.from_spank "spank_option_register" e), cache)

/-- A sequence of `registerOption` calls against the same native environment,
    threading the cache (failed registrations leave it unchanged). -/
def register_sequence (env : NativeEnv) (cache : OptionCache) :
    List SpankOption → OptionCache
  | [] => cache
  | opt :: rest => register_sequence env (registerOption env cache opt).2 rest

/-- `spank_option_callback` — the shared capture callback handed to
    `spank_option_register`. Receives the slot (`val`) and the optional
    `optarg` pointer (`none` models null). If the slot is not an index of
    `options` it logs an internal error and returns `-1` without touching the
    cache; otherwise it decodes the value and stores it under the mapped name
    with `HashMap::insert` (overwriting any previous entry), returning `0`.
    The returned `Bool` records whether the internal-error log fired. -/
def spank_option_callback (cache : OptionCache) (val : Nat) (optarg : Option Bytes) :
    Int × OptionCache × Bool :=
  match cache.options[val]? with
  | none => (-1, cache, true)
  | some name => (0, { cache with values := valuesInsert cache.values name optarg }, false)

/-- `SpankHandle::do_getenv_os` retry loop, fuelled: the body calls the native
    getenv-style function with the current buffer size; `ESPANK_ENV_NOEXIST`
    yields `Ok(None)`, success yields the value read back from the buffer,
    `ESPANK_NOSPACE` doubles the size and retries, anything else is a wrapped
    API error — hardcoded as `"spank_getenv"` in the source no matter which
    native function was passed in. `none` means the fuel ran out before the
    native call reported a terminal status. -/
def do_getenv_loop (f : Bytes → Nat → SpankErr × Bytes) (name : Bytes) :
    Nat → Nat → Option (Except SpankError (Option Bytes))
  | 0, _ => none
  | fuel + 1, max_size =>
    match f name max_size with
    | (SpankErr.envNoexist, _) => some (Except.ok none)
    | (SpankErr.success, v) => some (Except.ok (some v))
    | (SpankErr.noSpace, _) => do_getenv_loop f name fuel (max_size * 2)
    | (e, _) => some (Except.error (SpankError.from_spank "spank_getenv" e))

/-- `SpankHandle::do_getenv_os`: converts the name (failing with
    `CStringError` via `from_str`), then runs the retry loop starting from a
    4096-byte buffer. -/
def do_getenv_os (f : Bytes → Nat → SpankErr × Bytes) (name : Bytes) (fuel : Nat) :
    Option (Except SpankError (Option Bytes)) :=
  if hasNul name then some (Except.error (SpankError.CStringError name))
  else do_getenv_loop f name fuel 4096

/-- `SpankHandle::getenv_os` — job environment variant, passing
    `spank_getenv` as the native function. -/
def getenv_os (env : NativeEnv) (name : Bytes) (fuel : Nat) :
    Option (Except SpankError (Option Bytes)) :=
  do_getenv_os env.spank_getenv name fuel

/-- `SpankHandle::job_control_getenv_os` — job-control variant, passing
    `spank_job_control_getenv` as the native function. -/
def job_control_getenv_os (env : NativeEnv) (name : Bytes) (fuel : Nat) :
    Option (Except SpankError (Option Bytes)) :=
  do_getenv_os env.spank_job_control_getenv name fuel

/-- `SpankHandle::do_setenv`: converts name then value (each failing with
    `Utf8Error` via `from_os_str`), calls the given native setenv-style
    function with the overwrite flag; `ESPANK_ENV_EXISTS` maps to the
    dedicated `EnvExists` error carrying the variable name, any other
    non-success status to a wrapped API error — hardcoded as `"spank_setenv"`
    in the source no matter which native function was passed in. -/
def do_setenv (f : Bytes → Bytes → Bool → SpankErr) (name value : Bytes)
    (overwrite : Bool) : Except SpankError Unit :=
  if hasNul name then Except.error (SpankError.Utf8Error name)
  else if hasNul value then Except.error (SpankError.Utf8Error value)
  else
    match f name value overwrite with
    | SpankErr.success => Except.ok ()
    | SpankErr.envExists => Except.error (SpankError.EnvExists name)
    | e => Except.error (SpankError.from_spank "spank_setenv" e)

/-- `SpankHandle::setenv` — job environment variant. -/
def setenv (env : NativeEnv) (name value : Bytes) (overwrite : Bool) :
    Except SpankError Unit :=
  do_setenv env.spank_setenv name value overwrite

/-- `SpankHandle::job_control_setenv` — job-control variant. -/
def job_control_setenv (env : NativeEnv) (name value : Bytes) (overwrite : Bool) :
    Except SpankError Unit :=
  do_setenv env.spank_job_control_setenv name value overwrite

/-- `SpankHandle::do_unsetenv`: converts the name (failing with `Utf8Error`),
    calls the given native unsetenv-style function; any non-success status is
    a wrapped API error — hardcoded as `"spank_unsetenv"` in the source. -/
def do_unsetenv (f : Bytes → SpankErr) (name : Bytes) : Except SpankError Unit :=
  if hasNul name then Except.error (SpankError.Utf8Error name)
  else
    match f name with
    | SpankErr.success => Except.ok ()
    | e => Except.error (SpankError.from_spank "spank_unsetenv" e)

/-- `SpankHandle::unsetenv` — job environment variant. -/
def unsetenv (env : NativeEnv) (name : Bytes) : Except SpankError Unit :=
  do_unsetenv env.spank_unsetenv name

/-- `SpankHandle::job_control_unsetenv` — job-control variant. -/
def job_control_unsetenv (env : NativeEnv) (name : Bytes) : Except SpankError Unit :=
  do_unsetenv env.spank_job_control_unsetenv name

/-- Outcome of running a piece of author code (a lifecycle method, the setup
    hook, or the whole closure handed to `spank_callback_with_globals`):
    `Ok(())`, `Err(..)`, or a Rust panic. -/
inductive CallRes where
  | ok
  | err
  | panic
deriving DecidableEq, Repr

/-- Observable side calls made by one generated hook body:
    whether `report_error` fired for a failed `setup`, whether it fired for a
    failed lifecycle method, and whether the author's lifecycle method was
    invoked at all. -/
structure HookEvents where
  setupErrorReported : Bool
  cbErrorReported : Bool
  cbRan : Bool
deriving DecidableEq, Repr

/-- No side calls. -/
def noEvents : HookEvents := ⟨false, false, false⟩

/-- The process-wide state behind the `lazy_static` globals: the `PLUGIN`
    slot (`Mutex<Option<Box<dyn Plugin>>>`, the plugin instance modelled as
    `Unit`) and the poison bits of the two `std::sync::Mutex`es (a std mutex
    is poisoned when a guard is dropped during a panic, which makes every
    later `try_lock` return `Err`). -/
structure GlobalState where
  plugin : Option Unit
  pluginPoisoned : Bool
  cachePoisoned : Bool
deriving DecidableEq, Repr

/-- `spank_callback_with_globals`, the dispatch boundary. Inside
    `catch_unwind`: `OPTION_CACHE.try_lock().expect(..)` panics if that mutex
    is poisoned (caught, `-1`, no guard was held so no new poisoning);
    likewise for `PLUGIN`, except the cache guard is then dropped during the
    panic, poisoning `OPTION_CACHE` too. Otherwise the plugin is taken from
    its slot (`need_setup` is true iff the slot was empty and a fresh default
    instance was built), the closure runs, `Ok`/`Err` map to `0`/`-1` and the
    plugin is put back; a panic in the closure unwinds past the `replace`,
    dropping both guards while panicking: the slot stays empty, both mutexes
    are poisoned, and `catch_unwind` converts the unwind to `-1` (after
    logging the panic message). -/
def spank_callback_with_globals (st : GlobalState)
    (func : Bool → CallRes × HookEvents) : Int × GlobalState × HookEvents :=
  if st.cachePoisoned then
    (-1, st, noEvents)
  else if st.pluginPoisoned then
    (-1, { st with cachePoisoned := true }, noEvents)
  else
    let needSetup := st.plugin.isNone
    match func needSetup with
    | (CallRes.ok, ev) => (0, { st with plugin := some () }, ev)
    | (CallRes.err, ev) => (-1, { st with plugin := some () }, ev)
    | (CallRes.panic, ev) =>
      (-1, { plugin := none, pluginPoisoned := true, cachePoisoned := true }, ev)

/-- The closure built by the `spank_hook!` macro for a lifecycle entry point,
    abstracted over the outcomes of the author's `setup` and lifecycle
    methods. If `need_setup`, `setup` runs first: on `Err` the error is
    reported via `report_error` and the `?` operator returns early — the
    lifecycle method is never invoked; a panic in `setup` unwinds directly.
    Otherwise the lifecycle method runs; on `Err` the error is reported and
    returned. -/
def spank_hook_body (setupRes cbRes : CallRes) (needSetup : Bool) :
    CallRes × HookEvents :=
  if needSetup ∧ setupRes ≠ CallRes.ok then
    match setupRes with
    | CallRes.err => (CallRes.err, ⟨true, false, false⟩)
    | _ => (setupRes, noEvents)
  else
    match cbRes with
    | CallRes.ok => (CallRes.ok, ⟨false, false, true⟩)
    | CallRes.err => (CallRes.err, ⟨false, true, true⟩)
    | CallRes.panic => (CallRes.panic, ⟨false, false, true⟩)

/-- A full native entry point (`slurm_spank_*`) as generated by
    `SPANK_PLUGIN!`: the hook body dispatched through
    `spank_callback_with_globals`. -/
def spank_hook_entry (st : GlobalState) (setupRes cbRes : CallRes) :
    Int × GlobalState × HookEvents :=
  spank_callback_with_globals st (spank_hook_body setupRes cbRes)

/-! ## Concrete native environments used by witnesses and counterexamples -/

/-- A benign native environment (Remote context, everything succeeds). -/
def baseEnv : NativeEnv where
  context := some Context.Remote
  getopt := fun _ => ⟨SpankErr.error, none⟩
  optionRegister := fun _ _ => SpankErr.success
  spank_getenv := fun _ _ => (SpankErr.envNoexist, [])
  spank_job_control_getenv := fun _ _ => (SpankErr.envNoexist, [])
  spank_setenv := fun _ _ _ => SpankErr.success
  spank_job_control_setenv := fun _ _ _ => SpankErr.success
  spank_unsetenv := fun _ => SpankErr.success
  spank_job_control_unsetenv := fun _ => SpankErr.success

/-- JobScript-context environment whose native option table answers every
    getopt query with the value `"5"` (`[53]`). -/
def jsEnv : NativeEnv :=
  { baseEnv with
    context := some Context.JobScript
    getopt := fun _ => ⟨SpankErr.success, some [53]⟩ }

/-- The empty option cache (`OptionCache::default()`). -/
def emptyCache : OptionCache := ⟨[], []⟩

/-! ## Claims C1, C2, C10 — the option-value accessors -/

/-- **C1, counterexample.** In `JobScript` context with the native table
    holding `"5"` for option `"x"` (`[120]`), the first
    `get_option_value_os` query returns the value but leaves the shared
    `OptionCache` untouched (no entry is written for the name), and the
    second query for the same name performs another native
    `spank_option_getopt` call — refuting the claimed opportunistic
    cache write and the claimed native-call-free second query. -/
theorem C1_counterexample :
    (get_option_value_os jsEnv emptyCache [120]).result = some [53] ∧
    (get_option_value_os jsEnv emptyCache [120]).cache = emptyCache ∧
    valuesGet (get_option_value_os jsEnv emptyCache [120]).cache.values [120] = none ∧
    (get_option_value_os jsEnv
      (get_option_value_os jsEnv emptyCache [120]).cache [120]).nativeGetoptCalls = 1 := by
  decide

/-- **C1 (amended).** For every option name (with no embedded NUL) queried
    while the context is `JobScript`, `get_option_value_os` performs exactly
    one direct synchronous `spank_option_getopt` query and does **not** write
    the result into the shared `OptionCache`; a second query for the same name
    in the same invocation therefore performs another native call, and returns
    the same value because it re-queries the unchanged native table. -/
theorem C1_jobscript_direct_query (env : NativeEnv) (cache : OptionCache)
    (name : Bytes) (hctx : env.context = some Context.JobScript)
    (hnul : hasNul name = false) :
    (get_option_value_os env cache name).cache = cache ∧
    (get_option_value_os env cache name).nativeGetoptCalls = 1 ∧
    (get_option_value_os env (get_option_value_os env cache name).cache
        name).nativeGetoptCalls = 1 ∧
    (get_option_value_os env (get_option_value_os env cache name).cache name).result =
      (get_option_value_os env cache name).result := by
  simp [get_option_value_os, hctx, hnul]

/-- **C1 witness.** The amended theorem applied to the concrete JobScript
    environment. -/
theorem C1_witness :
    jsEnv.context = some Context.JobScript ∧ hasNul [120] = false ∧
    ((get_option_value_os jsEnv emptyCache [120]).cache = emptyCache ∧
     (get_option_value_os jsEnv emptyCache [120]).nativeGetoptCalls = 1 ∧
     (get_option_value_os jsEnv (get_option_value_os jsEnv emptyCache [120]).cache
        [120]).nativeGetoptCalls = 1 ∧
     (get_option_value_os jsEnv (get_option_value_os jsEnv emptyCache [120]).cache
        [120]).result = (get_option_value_os jsEnv emptyCache [120]).result) :=
  ⟨rfl, rfl, C1_jobscript_direct_query jsEnv emptyCache [120] rfl rfl⟩

/-- **C2.** In every context other than `JobScript`, `get_option_value_os`
    returns `some v` exactly when the cache's `values` map holds a captured
    value `v` under the queried name; it returns `none` both when the map has
    no entry for the name (in particular on the empty cache, i.e. before any
    capture fired) and when the entry is a value-less flag entry
    (`some none`). -/
theorem C2_non_jobscript_cache_readout (env : NativeEnv) (cache : OptionCache)
    (name : Bytes) (c : Context) (hctx : env.context = some c)
    (hc : c ≠ Context.JobScript) :
    (∀ v, (get_option_value_os env cache name).result = some v ↔
      valuesGet cache.values name = some (some v)) ∧
    (valuesGet cache.values name = none →
      (get_option_value_os env cache name).result = none) ∧
    (valuesGet cache.values name = some none →
      (get_option_value_os env cache name).result = none) := by
  have hres : (get_option_value_os env cache name).result =
      match valuesGet cache.values name with
      | some (some v) => some v
      | _ => none := by
    cases c <;> simp_all [get_option_value_os, hctx]
  refine ⟨fun v => ?_, fun h => ?_, fun h => ?_⟩ <;>
    rcases hval : valuesGet cache.values name with _ | (_ | w) <;>
      simp_all [hres]

/-- **C2 witness.** Applied in `Remote` context to a cache holding a value
    entry for `"x"` (`[120]`), a flag entry for `"f"` (`[102]`) and nothing
    for `"y"` — instantiated at the name `"x"`. -/
theorem C2_witness :
    baseEnv.context = some Context.Remote ∧ Context.Remote ≠ Context.JobScript ∧
    (∀ v, (get_option_value_os baseEnv ⟨[[120], [102]], [([120], some [53]), ([102], none)]⟩
        [120]).result = some v ↔
      valuesGet (⟨[[120], [102]], [([120], some [53]), ([102], none)]⟩ : OptionCache).values
        [120] = some (some v)) ∧
    (valuesGet (⟨[[120], [102]], [([120], some [53]), ([102], none)]⟩ : OptionCache).values
        [120] = none →
      (get_option_value_os baseEnv ⟨[[120], [102]], [([120], some [53]), ([102], none)]⟩
        [120]).result = none) ∧
    (valuesGet (⟨[[120], [102]], [([120], some [53]), ([102], none)]⟩ : OptionCache).values
        [120] = some none →
      (get_option_value_os baseEnv ⟨[[120], [102]], [([120], some [53]), ([102], none)]⟩
        [120]).result = none) :=
  ⟨rfl, by decide,
    C2_non_jobscript_cache_readout baseEnv
      ⟨[[120], [102]], [([120], some [53]), ([102], none)]⟩ [120] Context.Remote rfl
      (by decide)⟩

/-- **C10.** In `JobScript` context (for a name with no embedded NUL), option
    queries never surface a native error: `get_option_value_os` returns `none`
    whenever the native getopt call reports any non-success status, and
    `is_option_set` returns `true` exactly when the native getopt call
    succeeds — even when the returned value pointer is null — and `false`
    whenever it fails. -/
theorem C10_jobscript_error_swallowing (env : NativeEnv) (cache : OptionCache)
    (name : Bytes) (hctx : env.context = some Context.JobScript)
    (hnul : hasNul name = false) :
    ((env.getopt name).status ≠ SpankErr.success →
      (get_option_value_os env cache name).result = none) ∧
    (is_option_set env cache name = true ↔
      (env.getopt name).status = SpankErr.success) ∧
    ((env.getopt name).status = SpankErr.success → (env.getopt name).optarg = none →
      is_option_set env cache name = true) := by
  refine ⟨fun h => ?_, ?_, fun hs _ => ?_⟩ <;>
    cases hstat : (env.getopt name).status <;>
      simp_all [get_option_value_os, is_option_set, getopt_os, exceptIsOk, hctx, hnul]

/-- **C10 witness.** Applied to a JobScript environment whose native option
    table fails every getopt query with a generic error. -/
theorem C10_witness :
    ({ jsEnv with getopt := fun _ => ⟨SpankErr.error, none⟩ } : NativeEnv).context =
      some Context.JobScript ∧ hasNul [120] = false ∧
    ((({ jsEnv with getopt := fun _ => ⟨SpankErr.error, none⟩ } : NativeEnv).getopt
        [120]).status ≠ SpankErr.success →
      (get_option_value_os { jsEnv with getopt := fun _ => ⟨SpankErr.error, none⟩ }
        emptyCache [120]).result = none) ∧
    (is_option_set { jsEnv with getopt := fun _ => ⟨SpankErr.error, none⟩ }
        emptyCache [120] = true ↔
      (({ jsEnv with getopt := fun _ => ⟨SpankErr.error, none⟩ } : NativeEnv).getopt
        [120]).status = SpankErr.success) ∧
    ((({ jsEnv with getopt := fun _ => ⟨SpankErr.error, none⟩ } : NativeEnv).getopt
        [120]).status = SpankErr.success →
      (({ jsEnv with getopt := fun _ => ⟨SpankErr.error, none⟩ } : NativeEnv).getopt
        [120]).optarg = none →
      is_option_set { jsEnv with getopt := fun _ => ⟨SpankErr.error, none⟩ }
        emptyCache [120] = true) :=
  ⟨rfl, rfl,
    C10_jobscript_error_swallowing
      { jsEnv with getopt := fun _ => ⟨SpankErr.error, none⟩ } emptyCache [120] rfl rfl⟩

/-! ## Claims C3, C4, C5 — the callback-dispatch boundary -/

/-- The process state before the very first callback: empty plugin slot,
    nothing poisoned. -/
def freshState : GlobalState := ⟨none, false, false⟩

/-- A hook-level closure whose author code panics. -/
def panicFunc : Bool → CallRes × HookEvents := fun _ => (CallRes.panic, noEvents)

/-- A hook-level closure whose author code succeeds after running. -/
def okFunc : Bool → CallRes × HookEvents := fun _ => (CallRes.ok, ⟨false, false, true⟩)

/-- **C3, counterexample.** Starting from the fresh process state (so the
    one-time setup hook runs before the first callback), a failing `setup`
    is reported through `report_error`, but the triggering lifecycle callback
    is **not** invoked (`cbRan = false`): the `?` operator aborts the hook
    body, and the native entry point returns `-1`. -/
theorem C3_counterexample :
    (spank_hook_entry freshState CallRes.err CallRes.ok).2.2.setupErrorReported = true ∧
    (spank_hook_entry freshState CallRes.err CallRes.ok).2.2.cbRan = false ∧
    (spank_hook_entry freshState CallRes.err CallRes.ok).1 = -1 := by
  decide

/-- **C3 (amended).** When the one-time setup hook runs before the first
    callback and returns an error, that error is reported through the
    error-report hook, the triggering lifecycle callback is **not** invoked
    (the hook body returns early), the entry point returns `-1`, and the
    freshly built plugin instance is still stored in the slot (so setup does
    not run again on the next callback). -/
theorem C3_setup_failure_aborts_callback (st : GlobalState) (cbRes : CallRes)
    (h1 : st.plugin = none) (h2 : st.pluginPoisoned = false)
    (h3 : st.cachePoisoned = false) :
    (spank_hook_entry st CallRes.err cbRes).1 = -1 ∧
    (spank_hook_entry st CallRes.err cbRes).2.2.setupErrorReported = true ∧
    (spank_hook_entry st CallRes.err cbRes).2.2.cbRan = false ∧
    (spank_hook_entry st CallRes.err cbRes).2.1.plugin = some () := by
  obtain ⟨p, pp, cp⟩ := st
  simp only at h1 h2 h3
  subst h1 h2 h3
  simp [spank_hook_entry, spank_callback_with_globals, spank_hook_body]

/-- **C3 witness.** The amended theorem applied to the fresh process state
    with a lifecycle method that would have succeeded. -/
theorem C3_witness :
    freshState.plugin = none ∧ freshState.pluginPoisoned = false ∧
    freshState.cachePoisoned = false ∧
    ((spank_hook_entry freshState CallRes.err CallRes.ok).1 = -1 ∧
     (spank_hook_entry freshState CallRes.err CallRes.ok).2.2.setupErrorReported = true ∧
     (spank_hook_entry freshState CallRes.err CallRes.ok).2.2.cbRan = false ∧
     (spank_hook_entry freshState CallRes.err CallRes.ok).2.1.plugin = some ()) :=
  ⟨rfl, rfl, rfl,
    C3_setup_failure_aborts_callback freshState CallRes.ok rfl rfl rfl⟩

/-- **C4.** For every process state and every callback body handed to
    `spank_callback_with_globals` (which covers all twelve generated lifecycle
    entry points): the returned native status is always `0` or `-1` — no
    unwind ever crosses the boundary, a panic included — and, whenever the
    global mutexes are healthy, the status is `0` exactly when the body
    returns `Ok(())`, and `-1` when it returns `Err` or panics. -/
theorem C4_status_mapping (st : GlobalState) (f : Bool → CallRes × HookEvents) :
    ((spank_callback_with_globals st f).1 = 0 ∨
      (spank_callback_with_globals st f).1 = -1) ∧
    (st.cachePoisoned = false → st.pluginPoisoned = false →
      (((f st.plugin.isNone).1 = CallRes.ok ↔
          (spank_callback_with_globals st f).1 = 0) ∧
       ((f st.plugin.isNone).1 = CallRes.err →
          (spank_callback_with_globals st f).1 = -1) ∧
       ((f st.plugin.isNone).1 = CallRes.panic →
          (spank_callback_with_globals st f).1 = -1))) := by
  obtain ⟨p, pp, cp⟩ := st
  cases pp <;> cases cp <;>
    rcases hf : f (Option.isNone p) with ⟨res, ev⟩ <;> cases res <;>
      simp_all [spank_callback_with_globals]

/-- **C4 witness.** The status mapping applied to the fresh process state and
    a succeeding callback body. -/
theorem C4_witness :
    ((spank_callback_with_globals freshState okFunc).1 = 0 ∨
      (spank_callback_with_globals freshState okFunc).1 = -1) ∧
    (freshState.cachePoisoned = false → freshState.pluginPoisoned = false →
      (((okFunc freshState.plugin.isNone).1 = CallRes.ok ↔
          (spank_callback_with_globals freshState okFunc).1 = 0) ∧
       ((okFunc freshState.plugin.isNone).1 = CallRes.err →
          (spank_callback_with_globals freshState okFunc).1 = -1) ∧
       ((okFunc freshState.plugin.isNone).1 = CallRes.panic →
          (spank_callback_with_globals freshState okFunc).1 = -1))) :=
  C4_status_mapping freshState okFunc

/-- **C5, counterexample.** Starting from a healthy state whose plugin slot is
    populated, a panicking callback body leaves the plugin slot empty (the
    taken instance is never put back), poisons both global mutexes, and the
    next callback — even one whose author code would succeed — returns `-1`
    with no author code run: the claimed always-replace / never-poisoned
    discipline does not hold on the panic path. -/
theorem C5_counterexample :
    (spank_callback_with_globals ⟨some (), false, false⟩ panicFunc).2.1.plugin = none ∧
    (spank_callback_with_globals ⟨some (), false, false⟩ panicFunc).2.1.pluginPoisoned
      = true ∧
    (spank_callback_with_globals ⟨some (), false, false⟩ panicFunc).2.1.cachePoisoned
      = true ∧
    (spank_callback_with_globals
      (spank_callback_with_globals ⟨some (), false, false⟩ panicFunc).2.1 okFunc).1
      = -1 ∧
    (spank_callback_with_globals
      (spank_callback_with_globals ⟨some (), false, false⟩ panicFunc).2.1 okFunc).2.2
      = noEvents := by
  decide

/-- **C5 (amended).** Starting from a healthy (unpoisoned) state: on the `Ok`
    and `Err` exit paths the plugin instance taken from the `PLUGIN` slot is
    replaced before returning and both global mutexes stay unpoisoned; but
    when the callback body panics, the boundary returns `-1` with the slot
    left empty and both mutexes poisoned, so every subsequent callback fails
    with `-1` without reaching the author's code. -/
theorem C5_panic_poisons_globals (st : GlobalState) (f : Bool → CallRes × HookEvents)
    (h2 : st.pluginPoisoned = false) (h3 : st.cachePoisoned = false) :
    ((f st.plugin.isNone).1 ≠ CallRes.panic →
      ((spank_callback_with_globals st f).2.1.plugin = some () ∧
       (spank_callback_with_globals st f).2.1.pluginPoisoned = false ∧
       (spank_callback_with_globals st f).2.1.cachePoisoned = false)) ∧
    ((f st.plugin.isNone).1 = CallRes.panic →
      ((spank_callback_with_globals st f).1 = -1 ∧
       (spank_callback_with_globals st f).2.1.plugin = none ∧
       (spank_callback_with_globals st f).2.1.pluginPoisoned = true ∧
       (spank_callback_with_globals st f).2.1.cachePoisoned = true ∧
       ∀ g : Bool → CallRes × HookEvents,
         (spank_callback_with_globals (spank_callback_with_globals st f).2.1 g).1 = -1 ∧
         (spank_callback_with_globals (spank_callback_with_globals st f).2.1 g).2.2 =
           noEvents)) := by
  obtain ⟨p, pp, cp⟩ := st
  simp only at h2 h3
  subst h2 h3
  rcases hf : f (Option.isNone p) with ⟨res, ev⟩
  cases res <;> simp_all [spank_callback_with_globals]

/-- **C5 witness.** The amended theorem applied to a populated healthy state
    and a panicking callback body. -/
theorem C5_witness :
    (⟨some (), false, false⟩ : GlobalState).pluginPoisoned = false ∧
    (⟨some (), false, false⟩ : GlobalState).cachePoisoned = false ∧
    ((panicFunc (⟨some (), false, false⟩ : GlobalState).plugin.isNone).1 = CallRes.panic →
      ((spank_callback_with_globals ⟨some (), false, false⟩ panicFunc).1 = -1 ∧
       (spank_callback_with_globals ⟨some (), false, false⟩ panicFunc).2.1.plugin = none ∧
       (spank_callback_with_globals ⟨some (), false, false⟩
          panicFunc).2.1.pluginPoisoned = true ∧
       (spank_callback_with_globals ⟨some (), false, false⟩
          panicFunc).2.1.cachePoisoned = true ∧
       ∀ g : Bool → CallRes × HookEvents,
         (spank_callback_with_globals
           (spank_callback_with_globals ⟨some (), false, false⟩ panicFunc).2.1 g).1 = -1 ∧
         (spank_callback_with_globals
           (spank_callback_with_globals ⟨some (), false, false⟩ panicFunc).2.1 g).2.2 =
             noEvents)) :=
  ⟨rfl, rfl,
    (C5_panic_poisons_globals ⟨some (), false, false⟩ panicFunc rfl rfl).2⟩

/-! ## Claims C6, C7 — option registration and the capture callback -/

/-- Looking up the key just inserted by `valuesInsert` yields exactly the
    inserted value (`HashMap::insert` overwrites). -/
theorem valuesGet_valuesInsert_self (m : List (Bytes × Option Bytes)) (k : Bytes)
    (v : Option Bytes) : valuesGet (valuesInsert m k v) k = some v := by
  induction m with
  | nil => simp [valuesInsert, valuesGet]
  | cons hd tl ih =>
    obtain ⟨k', v'⟩ := hd
    by_cases h : k' = k
    · subst h
      simp [valuesInsert, valuesGet]
    · simp [valuesInsert, valuesGet, h, ih]

/-- One `registerOption` call only ever appends to the `options` sequence. -/
theorem registerOption_extends_options (env : NativeEnv) (cache : OptionCache)
    (opt : SpankOption) :
    cache.options <+: (registerOption env cache opt).2.options := by
  cases h1 : badCString opt.arginfo with
  | some info => simp [registerOption, h1]
  | none =>
    cases h2 : hasNul opt.name with
    | true => simp [registerOption, h1, h2]
    | false =>
      cases h3 : badCString opt.usage with
      | some u => simp [registerOption, h1, h2, h3]
      | none =>
        cases h4 : env.optionRegister opt.name cache.options.length <;>
          simp [registerOption, h1, h2, h3, h4, List.prefix_append]

/-- A whole sequence of registrations only ever appends to `options`. -/
theorem register_sequence_extends_options (env : NativeEnv) (cache : OptionCache)
    (specs : List SpankOption) :
    cache.options <+: (register_sequence env cache specs).options := by
  induction specs generalizing cache with
  | nil => exact List.prefix_rfl
  | cons opt rest ih =>
    exact (registerOption_extends_options env cache opt).trans
      (ih (registerOption env cache opt).2)

/-- Entries below the length of a prefix are read off the prefix. -/
theorem prefix_getElem? {l₁ l₂ : List Bytes} (h : l₁ <+: l₂) {i : Nat}
    (hi : i < l₁.length) : l₂[i]? = l₁[i]? := by
  obtain ⟨t, rfl⟩ := h
  rw [List.getElem?_append, if_pos hi]

/-- **C6.** A `registerOption` call succeeds exactly when none of the name,
    arginfo and usage strings has an embedded NUL and the native registration
    call — invoked with slot `options.len()` as its correlation token —
    returns success; on success the name is appended to `options` and sits at
    the assigned slot; on any failure the cache is returned unchanged; and no
    later sequence of registrations ever moves an already-assigned slot
    (`options` only grows by appending, so every existing index keeps its
    name). -/
theorem C6_slot_assignment_and_stability (env : NativeEnv) (cache : OptionCache)
    (opt : SpankOption) :
    ((registerOption env cache opt).1 = Except.ok () ↔
      (badCString opt.arginfo = none ∧ hasNul opt.name = false ∧
       badCString opt.usage = none ∧
       env.optionRegister opt.name cache.options.length = SpankErr.success)) ∧
    ((registerOption env cache opt).1 = Except.ok () →
      ((registerOption env cache opt).2.options = cache.options ++ [opt.name] ∧
       (registerOption env cache opt).2.options[cache.options.length]? =
         some opt.name)) ∧
    (∀ e, (registerOption env cache opt).1 = Except.error e →
      (registerOption env cache opt).2 = cache) ∧
    (∀ specs, cache.options <+: (register_sequence env cache specs).options ∧
      ∀ i, i < cache.options.length →
        (register_sequence env cache specs).options[i]? = cache.options[i]?) := by
  refine ⟨?_, ?_, ?_, fun specs =>
    ⟨register_sequence_extends_options env cache specs, fun i hi =>
      prefix_getElem? (register_sequence_extends_options env cache specs) hi⟩⟩ <;>
  · cases h1 : badCString opt.arginfo with
    | some info => simp [registerOption, h1]
    | none =>
      cases h2 : hasNul opt.name with
      | true => simp [registerOption, h1, h2]
      | false =>
        cases h3 : badCString opt.usage with
        | some u => simp [registerOption, h1, h2, h3]
        | none =>
          cases h4 : env.optionRegister opt.name cache.options.length <;>
            simp [registerOption, h1, h2, h3, h4]

/-- **C6 witness.** Registering `"x"` (`[120]`) on the empty cache in an
    environment whose native registration succeeds: the success
    characterization, the append, the slot, and stability under a further
    registration of `"y"` (`[121]`). -/
theorem C6_witness :
    ((registerOption baseEnv emptyCache ⟨[120], none, none⟩).1 = Except.ok () ↔
      (badCString (none : Option Bytes) = none ∧ hasNul [120] = false ∧
       badCString (none : Option Bytes) = none ∧
       baseEnv.optionRegister [120] emptyCache.options.length = SpankErr.success)) ∧
    ((registerOption baseEnv emptyCache ⟨[120], none, none⟩).1 = Except.ok () →
      ((registerOption baseEnv emptyCache ⟨[120], none, none⟩).2.options =
         emptyCache.options ++ [[120]] ∧
       (registerOption baseEnv emptyCache
         ⟨[120], none, none⟩).2.options[emptyCache.options.length]? = some [120])) ∧
    (∀ e, (registerOption baseEnv emptyCache ⟨[120], none, none⟩).1 = Except.error e →
      (registerOption baseEnv emptyCache ⟨[120], none, none⟩).2 = emptyCache) ∧
    (∀ specs, emptyCache.options <+:
        (register_sequence baseEnv emptyCache specs).options ∧
      ∀ i, i < emptyCache.options.length →
        (register_sequence baseEnv emptyCache specs).options[i]? =
          emptyCache.options[i]?) :=
  C6_slot_assignment_and_stability baseEnv emptyCache ⟨[120], none, none⟩

/-- The capture callback never touches the `options` sequence. -/
theorem spank_option_callback_options (cache : OptionCache) (val : Nat)
    (optarg : Option Bytes) :
    (spank_option_callback cache val optarg).2.1.options = cache.options := by
  unfold spank_option_callback
  cases cache.options[val]? <;> simp

/-- **C7.** When the capture callback fires with a slot that maps to a
    registered option name, it returns `0`, logs nothing, leaves `options`
    untouched and stores the decoded value (`none` for a null pointer) in
    `values` under that name — overwriting any previous entry, so that after
    captures with `v1` then `v2` for the same slot a lookup for the name
    yields `v2` and never `v1`. When the slot maps to no registered name, it
    logs an internal error and returns `-1` without mutating the cache. -/
theorem C7_capture_overwrites (cache : OptionCache) (val : Nat)
    (optarg : Option Bytes) :
    (∀ name, cache.options[val]? = some name →
      ((spank_option_callback cache val optarg).1 = 0 ∧
       (spank_option_callback cache val optarg).2.2 = false ∧
       (spank_option_callback cache val optarg).2.1.options = cache.options ∧
       valuesGet (spank_option_callback cache val optarg).2.1.values name =
         some optarg)) ∧
    (cache.options[val]? = none →
      ((spank_option_callback cache val optarg).1 = -1 ∧
       (spank_option_callback cache val optarg).2.2 = true ∧
       (spank_option_callback cache val optarg).2.1 = cache)) ∧
    (∀ name v2, cache.options[val]? = some name →
      valuesGet (spank_option_callback
        (spank_option_callback cache val optarg).2.1 val v2).2.1.values name =
          some v2) := by
  refine ⟨fun name h => ?_, fun h => ?_, fun name v2 h => ?_⟩
  · simp [spank_option_callback, h, valuesGet_valuesInsert_self]
  · simp [spank_option_callback, h]
  · have hopts : (spank_option_callback cache val optarg).2.1.options[val]? =
        some name := by
      rw [spank_option_callback_options]
      exact h
    simp [spank_option_callback, h, hopts, valuesGet_valuesInsert_self]

/-- **C7 witness.** A cache with the single registered name `"x"` (`[120]`):
    slot `0` captures `"1"` (`[49]`) then `"2"` (`[50]`) — the lookup yields
    the second value; slot `5` is unregistered and leaves the cache
    unchanged with status `-1`. -/
theorem C7_witness :
    ((spank_option_callback ⟨[[120]], []⟩ 0 (some [49])).1 = 0 ∧
     (spank_option_callback ⟨[[120]], []⟩ 0 (some [49])).2.2 = false ∧
     (spank_option_callback ⟨[[120]], []⟩ 0 (some [49])).2.1.options = [[120]] ∧
     valuesGet (spank_option_callback ⟨[[120]], []⟩ 0 (some [49])).2.1.values [120] =
       some (some [49])) ∧
    ((spank_option_callback ⟨[[120]], []⟩ 5 (some [49])).1 = -1 ∧
     (spank_option_callback ⟨[[120]], []⟩ 5 (some [49])).2.2 = true ∧
     (spank_option_callback ⟨[[120]], []⟩ 5 (some [49])).2.1 = ⟨[[120]], []⟩) ∧
    valuesGet (spank_option_callback
      (spank_option_callback ⟨[[120]], []⟩ 0 (some [49])).2.1 0
        (some [50])).2.1.values [120] = some (some [50]) :=
  ⟨(C7_capture_overwrites ⟨[[120]], []⟩ 0 (some [49])).1 [120] rfl,
   (C7_capture_overwrites ⟨[[120]], []⟩ 5 (some [49])).2.1 rfl,
   (C7_capture_overwrites ⟨[[120]], []⟩ 0 (some [49])).2.2 [120] (some [50]) rfl⟩

/-! ## Claims C8, C9 — the environment wrappers -/

/-- How the getenv retry loop maps the native result of its terminal
    (non-`ESPANK_NOSPACE`) iteration: `ESPANK_ENV_NOEXIST` yields `Ok(None)`,
    success yields the value, anything else the wrapped `"spank_getenv"` API
    error. -/
def getenvResultOf (p : SpankErr × Bytes) : Except SpankError (Option Bytes) :=
  match p with
  | (SpankErr.envNoexist, _) => Except.ok none
  | (SpankErr.success, v) => Except.ok (some v)
  | (e, _) => Except.error (SpankError.from_spank "spank_getenv" e)

/-- Characterization of the retry loop: if it terminates with a result, the
    native function reported `ESPANK_NOSPACE` at every size `sz * 2 ^ j`
    strictly before some `k`-th doubling, the `k`-th call reported something
    else, and the result is read off that terminal call. -/
theorem do_getenv_loop_spec (f : Bytes → Nat → SpankErr × Bytes) (name : Bytes) :
    ∀ (fuel sz : Nat) (r : Except SpankError (Option Bytes)),
      do_getenv_loop f name fuel sz = some r →
      ∃ k, (∀ j, j < k → (f name (sz * 2 ^ j)).1 = SpankErr.noSpace) ∧
        (f name (sz * 2 ^ k)).1 ≠ SpankErr.noSpace ∧
        r = getenvResultOf (f name (sz * 2 ^ k)) := by
  intro fuel
  induction fuel with
  | zero =>
    intro sz r h
    simp [do_getenv_loop] at h
  | succ n ih =>
    intro sz r h
    rw [do_getenv_loop] at h
    rcases hp : f name sz with ⟨st, v⟩
    rw [hp] at h
    have hsz0 : sz * 2 ^ 0 = sz := by ring
    cases st
    case noSpace =>
      obtain ⟨k, hk1, hk2, hk3⟩ := ih (sz * 2) r h
      have hmul : ∀ j : Nat, sz * 2 ^ (j + 1) = sz * 2 * 2 ^ j := by
        intro j
        ring
      refine ⟨k + 1, fun j hj => ?_, ?_, ?_⟩
      · cases j with
        | zero => rw [hsz0, hp]
        | succ i =>
          rw [hmul i]
          exact hk1 i (by omega)
      · rw [hmul k]
        exact hk2
      · rw [hmul k]
        exact hk3
    all_goals
      exact ⟨0, by omega, by rw [hsz0, hp]; simp, by
        rw [hsz0, hp]; simp_all [getenvResultOf]⟩

/-- **C8.** For every environment-variable get (both the job and the
    job-control variants route through `do_getenv_os` with their native
    function as `f`): when the wrapper terminates with a result for a
    NUL-free name, the native call was retried with a doubled buffer size on
    every `ESPANK_NOSPACE` status starting from 4096, and at the terminal
    size the wrapper returns `Ok(None)` exactly on the env-does-not-exist
    status, `Ok(Some value)` exactly on success, and a wrapped API error for
    any other non-success status. -/
theorem C8_getenv_growth_and_mapping (f : Bytes → Nat → SpankErr × Bytes)
    (name : Bytes) (fuel : Nat) (r : Except SpankError (Option Bytes))
    (hnul : hasNul name = false) (h : do_getenv_os f name fuel = some r) :
    ∃ k, (∀ j, j < k → (f name (4096 * 2 ^ j)).1 = SpankErr.noSpace) ∧
      (f name (4096 * 2 ^ k)).1 ≠ SpankErr.noSpace ∧
      (r = Except.ok none ↔ (f name (4096 * 2 ^ k)).1 = SpankErr.envNoexist) ∧
      (∀ v, r = Except.ok (some v) ↔
        ((f name (4096 * 2 ^ k)).1 = SpankErr.success ∧
         (f name (4096 * 2 ^ k)).2 = v)) ∧
      ((f name (4096 * 2 ^ k)).1 ≠ SpankErr.success →
        (f name (4096 * 2 ^ k)).1 ≠ SpankErr.envNoexist →
        r = Except.error
          (SpankError.from_spank "spank_getenv" (f name (4096 * 2 ^ k)).1)) := by
  rw [do_getenv_os, hnul] at h
  simp only [Bool.false_eq_true, if_false] at h
  obtain ⟨k, h1, h2, h3⟩ := do_getenv_loop_spec f name fuel 4096 r h
  subst h3
  refine ⟨k, h1, h2, ?_, ?_, ?_⟩ <;>
    rcases hp : f name (4096 * 2 ^ k) with ⟨st, v⟩ <;>
      cases st <;> simp [getenvResultOf, eq_comm]

/-- Native getenv behaviour used by the C8 witness: "no space" at the initial
    4096-byte size, success with value `"a"` (`[97]`) at any larger size. -/
def c8f : Bytes → Nat → SpankErr × Bytes :=
  fun _ sz => if sz = 4096 then (SpankErr.noSpace, []) else (SpankErr.success, [97])

/-- The result produced by `c8f` after its one forced doubling. -/
def c8res : Except SpankError (Option Bytes) := Except.ok (some [97])

/-- **C8 witness.** The characterization applied to a concrete native
    function that requires one doubling before succeeding. -/
theorem C8_witness :
    hasNul [65] = false ∧ do_getenv_os c8f [65] 3 = some c8res ∧
    ∃ k, (∀ j, j < k → (c8f [65] (4096 * 2 ^ j)).1 = SpankErr.noSpace) ∧
      (c8f [65] (4096 * 2 ^ k)).1 ≠ SpankErr.noSpace ∧
      (c8res = Except.ok none ↔ (c8f [65] (4096 * 2 ^ k)).1 = SpankErr.envNoexist) ∧
      (∀ v, c8res = Except.ok (some v) ↔
        ((c8f [65] (4096 * 2 ^ k)).1 = SpankErr.success ∧
         (c8f [65] (4096 * 2 ^ k)).2 = v)) ∧
      ((c8f [65] (4096 * 2 ^ k)).1 ≠ SpankErr.success →
        (c8f [65] (4096 * 2 ^ k)).1 ≠ SpankErr.envNoexist →
        c8res = Except.error
          (SpankError.from_spank "spank_getenv" (c8f [65] (4096 * 2 ^ k)).1)) :=
  ⟨rfl, rfl, C8_getenv_growth_and_mapping c8f [65] 3 c8res rfl rfl⟩

/-- Native environment whose job-control calls all fail with the generic
    error status. -/
def c9Env : NativeEnv :=
  { baseEnv with
    spank_job_control_getenv := fun _ _ => (SpankErr.error, [])
    spank_job_control_setenv := fun _ _ _ => SpankErr.error
    spank_job_control_unsetenv := fun _ => SpankErr.error }

/-- **C9, code-bug evaluation.** A failing `spank_job_control_setenv`,
    `spank_job_control_getenv` or `spank_job_control_unsetenv` call is
    surfaced as a `SpankAPI` error naming `"spank_setenv"`, `"spank_getenv"`
    or `"spank_unsetenv"` respectively — the job-environment siblings, not
    the job-control native functions that were actually invoked (the shared
    helpers hardcode the name). The `EnvExists` half of the claim does hold:
    a native `ESPANK_ENV_EXISTS` status yields the dedicated `EnvExists`
    error carrying the variable name. -/
theorem C9_job_control_error_misnamed :
    job_control_setenv c9Env [88] [49] true =
      Except.error (SpankError.SpankAPI "spank_setenv" SpankApiError.Generic) ∧
    job_control_getenv_os c9Env [88] 1 =
      some (Except.error (SpankError.SpankAPI "spank_getenv" SpankApiError.Generic)) ∧
    job_control_unsetenv c9Env [88] =
      Except.error (SpankError.SpankAPI "spank_unsetenv" SpankApiError.Generic) ∧
    do_setenv (fun _ _ _ => SpankErr.envExists) [88] [49] false =
      Except.error (SpankError.EnvExists [88]) :=
  ⟨rfl, rfl, rfl, rfl⟩

end SpankRs
